import Mathlib

/-!
Shallow embedding of the customer-directory page
(src/src/pages/index.tsx): the creation-form submission flow
(handleSubmit, handleClose, handleInputChange) and the list-fetch flow
(fetcher, the swr hook state, the error banner).

The component runs single-threaded; each handler is a straight-line
async function whose setState calls compose into one final state, so a
handler is embedded as a pure function from the current component state
and the environment response (the outcome of the fetch) to the final
component state, together with an ordered trace of the observable
events: entering/leaving the submitting state, issuing the network
request, receiving the response, and invalidating the swr cache
(the mutate call on the customers key).
-/

/-- Customer record (index.tsx lines 26-30). -/
structure Customer where
  firstName : String
  lastName : String
  email : String
deriving DecidableEq, Repr

/-- ApiError shape (index.tsx lines 34-37). -/
structure ApiError where
  code : String
  message : String
deriving DecidableEq, Repr

/-- A thrown JavaScript value as the catch clause discriminates it:
either an Error instance carrying a message (err instanceof Error), or
any other thrown value. -/
inductive JsError where
  | error (message : String)
  | nonError
deriving DecidableEq, Repr

/-- A parsed JSON body as this page inspects it: an array of customers,
an object with code/message fields, or anything else. -/
inductive Json where
  | customers (cs : List Customer)
  | apiErr (e : ApiError)
  | other
deriving DecidableEq, Repr

/-- JavaScript property access .message on a parsed JSON value; none
models undefined. -/
def Json.messageField : Json → Option String
  | .apiErr e => some e.message
  | _ => none

/-- JavaScript a || b on an optional string a: the fallback is taken
when a is undefined or the empty string (both falsy). -/
def jsOr (v : Option String) (fallback : String) : String :=
  match v with
  | some s => if s = "" then fallback else s
  | none => fallback

/-- The catch clause of handleSubmit (index.tsx lines 99-104):
err.message when the thrown value is an Error instance, the generic
fallback otherwise. -/
def caughtMessage : JsError → String
  | .error msg => msg
  | .nonError => "An unexpected error occurred"

/-- The environment outcome of one fetch: either the transport fails
(the promise rejects with a JavaScript exception), or a response
arrives with a status flag (response.ok) and a body whose
response.json() either parses to a JSON value or rejects with an
exception. -/
inductive FetchOutcome where
  | transportFail (e : JsError)
  | response (ok : Bool) (body : Except JsError Json)

/-- True exactly on a 2xx response (response.ok). -/
def FetchOutcome.isSuccess : FetchOutcome → Bool
  | .response true _ => true
  | _ => false

/-- The component state of the Home page relevant to the creation form
(index.tsx lines 41-48): dialog visibility, inflight flag, submission
error, and the draft customer. -/
structure FormState where
  isModalOpen : Bool
  isSubmitting : Bool
  submitError : Option String
  newCustomer : Customer
deriving DecidableEq, Repr

/-- The all-empty draft (index.tsx lines 44-48 and 94). -/
def emptyCustomer : Customer := { firstName := "", lastName := "", email := "" }

/-- Observable events of one handleSubmit execution, in program order:
setIsSubmitting(true), the POST fetch being issued, its response
arriving with the given ok flag, the swr invalidation
(the mutate call, index.tsx line 95), and setIsSubmitting(false) in the
finally block. -/
inductive Event where
  | enterSubmitting
  | createRequest
  | responseReceived (ok : Bool)
  | invalidate
  | exitSubmitting
deriving DecidableEq, Repr

/-- handleSubmit (index.tsx lines 70-108) as a function of the current
state and the environment outcome of the create fetch.  The branches
compose the setState calls of the source in program order:
validation failure (lines 74-77) sets the message and returns before
setIsSubmitting(true); a transport rejection or a body-parse rejection
is caught at lines 99-104; a non-ok response throws
new Error(errorData.message || fallback) at line 91, caught the same
way; a 2xx response resets the draft, invalidates the cache and closes
the dialog (lines 94-98); the finally block (line 106) clears the
inflight flag on every path that entered it. -/
def handleSubmit (s : FormState) (net : FetchOutcome) : FormState × List Event :=
  if s.newCustomer.firstName = "" ∨ s.newCustomer.lastName = "" ∨ s.newCustomer.email = "" then
    ({ s with submitError := some "Please fill in all required fields" }, [])
  else
    match net with
    | .transportFail e =>
        ({ s with submitError := some (caughtMessage e), isSubmitting := false },
         [.enterSubmitting, .createRequest, .exitSubmitting])
    | .response true _ =>
        ({ s with submitError := none, newCustomer := emptyCustomer,
                  isModalOpen := false, isSubmitting := false },
         [.enterSubmitting, .createRequest, .responseReceived true,
          .invalidate, .exitSubmitting])
    | .response false (.ok errorData) =>
        ({ s with
            submitError := some (jsOr errorData.messageField "Failed to add customer"),
            isSubmitting := false },
         [.enterSubmitting, .createRequest, .responseReceived false, .exitSubmitting])
    | .response false (.error e) =>
        ({ s with submitError := some (caughtMessage e), isSubmitting := false },
         [.enterSubmitting, .createRequest, .responseReceived false, .exitSubmitting])

/-- handleClose (index.tsx lines 116-121): unless a submission is in
flight, close the dialog and clear the submission error.  The draft is
not touched. -/
def handleClose (s : FormState) : FormState :=
  if s.isSubmitting then s
  else { s with isModalOpen := false, submitError := none }

/-- The three input names occurring in the form (index.tsx lines 226,
237, 250). -/
inductive FieldName where
  | firstName
  | lastName
  | email
deriving DecidableEq, Repr

/-- Projection of a customer on a field name. -/
def Customer.field (c : Customer) : FieldName → String
  | .firstName => c.firstName
  | .lastName => c.lastName
  | .email => c.email

/-- The computed-key spread of handleInputChange (index.tsx line 66)
for the three input names of the form. -/
def setField (c : Customer) (n : FieldName) (v : String) : Customer :=
  match n with
  | .firstName => { c with firstName := v }
  | .lastName => { c with lastName := v }
  | .email => { c with email := v }

/-- handleInputChange (index.tsx lines 64-67): replaces the draft by a
copy with the named field updated; no other state is touched. -/
def handleInputChange (s : FormState) (n : FieldName) (v : String) : FormState :=
  { s with newCustomer := setField s.newCustomer n v }

/-- A value thrown on the list-fetch path: the parsed JSON body thrown
at line 54, or a promise rejection carrying a JavaScript exception
(transport failure or response.json() rejection). -/
inductive Thrown where
  | jsonBody (j : Json)
  | errObj (e : JsError)
deriving DecidableEq, Repr

/-- JavaScript property access .message on a thrown value, as the error
banner renders it (index.tsx line 165). -/
def Thrown.messageField : Thrown → Option String
  | .jsonBody j => j.messageField
  | .errObj (.error m) => some m
  | .errObj .nonError => none

/-- fetcher (index.tsx lines 51-56): awaits the response, parses the
body, throws the parsed body on a non-ok response and returns it
otherwise; a transport failure or a response.json() rejection
propagates as the thrown exception. -/
def fetcher (r : FetchOutcome) : Except Thrown Json :=
  match r with
  | .transportFail e => .error (.errObj e)
  | .response ok body =>
      match body with
      | .error e => .error (.errObj e)
      | .ok j => if ok then .ok j else .error (.jsonBody j)

/-- The list-view state the useSWR hook exposes after one fetch
settles: data on fulfilment, error on rejection. -/
inductive SWRState where
  | ready (j : Json)
  | errorState (t : Thrown)
deriving DecidableEq, Repr

/-- Resolution of one list fetch by the useSWR hook (index.tsx lines
58-61): a fulfilled fetcher promise populates data, a rejected one is
caught by the hook and populates error; no rejection escapes to the
view. -/
def swrResolve (r : FetchOutcome) : SWRState :=
  match fetcher r with
  | .ok j => .ready j
  | .error t => .errorState t

/-- Modelled from the spec: the Directory Cache deduplication is
implemented inside the external swr library (the useSWR hook and the
mutate call on the customers key), whose source is not part of this
repository.  Spec section 4.1: load() is an "idempotent-to-call
operation that, if not already in flight, issues a read"; invalidate()
re-issues load() and "concurrent calls while a load is already in
flight must not issue duplicate requests".  The state tracks whether a
fetch is in flight and how many network requests were issued. -/
structure DirectoryCache where
  inFlight : Bool
  requestCount : Nat
deriving DecidableEq, Repr

/-- Modelled from the spec: load() issues a new request only when none
is in flight. -/
def DirectoryCache.load (c : DirectoryCache) : DirectoryCache :=
  if c.inFlight then c
  else { inFlight := true, requestCount := c.requestCount + 1 }

/-- Modelled from the spec: invalidate() marks the data stale and
re-issues load(); while a load is in flight it coalesces onto it. -/
def DirectoryCache.invalidate (c : DirectoryCache) : DirectoryCache :=
  c.load

/-- A concrete fully-filled state used by witnesses and
counterexamples. -/
def sAda : FormState :=
  { isModalOpen := true, isSubmitting := false, submitError := none,
    newCustomer := { firstName := "Ada", lastName := "Lovelace",
                     email := "ada@example.com" } }

example : (handleSubmit sAda (.response true (.ok .other))).1.newCustomer = emptyCustomer := by
  decide

example : (handleClose sAda).submitError = none := by decide

/-! ## Claims -/

/-- C1: if any of the three required fields of the draft is empty,
handleSubmit issues no network create request, never enters the
submitting state, sets the submission error to the validation message,
and leaves the inflight flag as it was. -/
theorem c1_validation_gate (s : FormState) (net : FetchOutcome)
    (h : s.newCustomer.firstName = "" ∨ s.newCustomer.lastName = ""
        ∨ s.newCustomer.email = "") :
    Event.createRequest ∉ (handleSubmit s net).2 ∧
    Event.enterSubmitting ∉ (handleSubmit s net).2 ∧
    (handleSubmit s net).2 = [] ∧
    (handleSubmit s net).1.submitError = some "Please fill in all required fields" ∧
    (handleSubmit s net).1.isSubmitting = s.isSubmitting := by
  unfold handleSubmit
  rw [if_pos h]
  exact ⟨List.not_mem_nil _, List.not_mem_nil _, rfl, rfl, rfl⟩

/-- C1 witness: the validation gate at a concrete state with an empty
last name. -/
theorem c1_validation_gate_witness :
    Event.createRequest ∉
      (handleSubmit
        { isModalOpen := true, isSubmitting := false, submitError := none,
          newCustomer := { firstName := "Ada", lastName := "", email := "a@b.c" } }
        (.response true (.ok .other))).2 ∧
    Event.enterSubmitting ∉
      (handleSubmit
        { isModalOpen := true, isSubmitting := false, submitError := none,
          newCustomer := { firstName := "Ada", lastName := "", email := "a@b.c" } }
        (.response true (.ok .other))).2 ∧
    (handleSubmit
        { isModalOpen := true, isSubmitting := false, submitError := none,
          newCustomer := { firstName := "Ada", lastName := "", email := "a@b.c" } }
        (.response true (.ok .other))).2 = [] ∧
    (handleSubmit
        { isModalOpen := true, isSubmitting := false, submitError := none,
          newCustomer := { firstName := "Ada", lastName := "", email := "a@b.c" } }
        (.response true (.ok .other))).1.submitError =
      some "Please fill in all required fields" ∧
    (handleSubmit
        { isModalOpen := true, isSubmitting := false, submitError := none,
          newCustomer := { firstName := "Ada", lastName := "", email := "a@b.c" } }
        (.response true (.ok .other))).1.isSubmitting = false :=
  c1_validation_gate
    { isModalOpen := true, isSubmitting := false, submitError := none,
      newCustomer := { firstName := "Ada", lastName := "", email := "a@b.c" } }
    (.response true (.ok .other)) (Or.inr (Or.inl rfl))

/-- C2 counterexample: in a non-submitting state holding a non-empty
draft, handleClose leaves the draft unchanged instead of resetting it
to the all-empty record, refuting the claim that close() resets
DraftCustomer. -/
theorem c2_close_counterexample :
    sAda.isSubmitting = false ∧ (handleClose sAda).newCustomer ≠ emptyCustomer := by
  decide

/-- C2 amended: while not submitting, handleClose closes the dialog and
clears the submission error but leaves the draft untouched; while
submitting it changes nothing. -/
theorem c2_close_amended (s : FormState) :
    (s.isSubmitting = false →
      handleClose s = { s with isModalOpen := false, submitError := none }) ∧
    (s.isSubmitting = true → handleClose s = s) := by
  constructor
  · intro h
    unfold handleClose
    rw [h]
    rfl
  · intro h
    unfold handleClose
    rw [h]
    rfl

/-- C2 amended witness: both branches at concrete states. -/
theorem c2_close_amended_witness :
    handleClose sAda = { sAda with isModalOpen := false, submitError := none } ∧
    handleClose { sAda with isSubmitting := true } = { sAda with isSubmitting := true } :=
  ⟨(c2_close_amended sAda).1 rfl,
   (c2_close_amended { sAda with isSubmitting := true }).2 rfl⟩

/-- C4: for a fully-filled draft, a 2xx create response resets the
draft to the all-empty record, emits the cache invalidation (the
mutate call), closes the dialog, and leaves the submission state idle
(not submitting, no error message). -/
theorem c4_success_resets (s : FormState) (body : Except JsError Json)
    (h1 : s.newCustomer.firstName ≠ "") (h2 : s.newCustomer.lastName ≠ "")
    (h3 : s.newCustomer.email ≠ "") :
    (handleSubmit s (.response true body)).1.newCustomer = emptyCustomer ∧
    Event.invalidate ∈ (handleSubmit s (.response true body)).2 ∧
    (handleSubmit s (.response true body)).1.isModalOpen = false ∧
    (handleSubmit s (.response true body)).1.isSubmitting = false ∧
    (handleSubmit s (.response true body)).1.submitError = none := by
  have hv : ¬(s.newCustomer.firstName = "" ∨ s.newCustomer.lastName = ""
      ∨ s.newCustomer.email = "") := by
    push_neg
    exact ⟨h1, h2, h3⟩
  unfold handleSubmit
  rw [if_neg hv]
  refine ⟨rfl, ?_, rfl, rfl, rfl⟩
  simp

/-- C4 witness: the success path at the concrete Ada draft. -/
theorem c4_success_resets_witness :
    (handleSubmit sAda (.response true (.ok .other))).1.newCustomer = emptyCustomer ∧
    Event.invalidate ∈ (handleSubmit sAda (.response true (.ok .other))).2 ∧
    (handleSubmit sAda (.response true (.ok .other))).1.isModalOpen = false ∧
    (handleSubmit sAda (.response true (.ok .other))).1.isSubmitting = false ∧
    (handleSubmit sAda (.response true (.ok .other))).1.submitError = none :=
  c4_success_resets sAda (.ok .other) (by decide) (by decide) (by decide)

/-- C5 counterexample: on a transport failure the message stored in the
submission error is the transport exception's own message, which is
neither a server-supplied message (no response arrived) nor either of
the code's generic fallback messages; this refutes the claim that every
failure carries the server message or a generic fallback. -/
theorem c5_failure_counterexample :
    (handleSubmit sAda (.transportFail (.error "Failed to fetch"))).1.submitError =
      some "Failed to fetch" ∧
    "Failed to fetch" ≠ "Failed to add customer" ∧
    "Failed to fetch" ≠ "An unexpected error occurred" ∧
    "Failed to fetch" ≠ "Please fill in all required fields" := by
  decide

/-- C5 amended: on every failing create call with a fully-filled draft,
the dialog visibility and the draft are unchanged and the inflight flag
ends false; the stored message is the server-supplied message when the
error body parses with a non-empty message field, the fixed fallback
"Failed to add customer" when it parses without one, the thrown
exception's message when the rejection is an Error instance, and
"An unexpected error occurred" for a non-Error rejection. -/
theorem c5_failure_preserves (s : FormState) (net : FetchOutcome)
    (h1 : s.newCustomer.firstName ≠ "") (h2 : s.newCustomer.lastName ≠ "")
    (h3 : s.newCustomer.email ≠ "") (hfail : net.isSuccess = false) :
    (handleSubmit s net).1.isModalOpen = s.isModalOpen ∧
    (handleSubmit s net).1.newCustomer = s.newCustomer ∧
    (handleSubmit s net).1.isSubmitting = false ∧
    (∀ j m, net = .response false (.ok j) → j.messageField = some m → m ≠ "" →
      (handleSubmit s net).1.submitError = some m) ∧
    (∀ j, net = .response false (.ok j) →
      (j.messageField = none ∨ j.messageField = some "") →
      (handleSubmit s net).1.submitError = some "Failed to add customer") ∧
    (∀ e m, (net = .transportFail e ∨ net = .response false (.error e)) →
      e = .error m → (handleSubmit s net).1.submitError = some m) ∧
    (∀ e, (net = .transportFail e ∨ net = .response false (.error e)) →
      e = .nonError →
      (handleSubmit s net).1.submitError = some "An unexpected error occurred") := by
  have hv : ¬(s.newCustomer.firstName = "" ∨ s.newCustomer.lastName = ""
      ∨ s.newCustomer.email = "") := by
    push_neg
    exact ⟨h1, h2, h3⟩
  unfold handleSubmit
  rw [if_neg hv]
  match net with
  | .transportFail e =>
      refine ⟨rfl, rfl, rfl, ?_, ?_, ?_, ?_⟩
      · intro j m hj
        exact absurd hj (by simp)
      · intro j hj
        exact absurd hj (by simp)
      · rintro e' m (he | he) hm
        · cases he
          rw [hm]
          rfl
        · exact absurd he (by simp)
      · rintro e' (he | he) hm
        · cases he
          rw [hm]
          rfl
        · exact absurd he (by simp)
  | .response true b =>
      exact absurd hfail (by simp [FetchOutcome.isSuccess])
  | .response false (.ok j) =>
      refine ⟨rfl, rfl, rfl, ?_, ?_, ?_, ?_⟩
      · intro j' m hj hm hne
        have : j' = j := by
          injection hj with h1 h2
          injection h2 with h3
          exact h3.symm
        subst this
        simp only [jsOr, hm]
        rw [if_neg hne]
      · intro j' hj hm
        have : j' = j := by
          injection hj with h1 h2
          injection h2 with h3
          exact h3.symm
        subst this
        rcases hm with hm | hm <;> simp [jsOr, hm]
      · rintro e m (he | he) hm
        · exact absurd he (by simp)
        · exact absurd he (by simp)
      · rintro e (he | he) hm
        · exact absurd he (by simp)
        · exact absurd he (by simp)
  | .response false (.error e) =>
      refine ⟨rfl, rfl, rfl, ?_, ?_, ?_, ?_⟩
      · intro j m hj
        exact absurd hj (by simp)
      · intro j hj
        exact absurd hj (by simp)
      · rintro e' m (he | he) hm
        · exact absurd he (by simp)
        · have : e' = e := by
            injection he with h1 h2
            injection h2 with h3
            exact h3.symm
          subst this
          rw [hm]
          rfl
      · rintro e' (he | he) hm
        · exact absurd he (by simp)
        · have : e' = e := by
            injection he with h1 h2
            injection h2 with h3
            exact h3.symm
          subst this
          rw [hm]
          rfl

/-- C5 amended witness: the 400 invalid-email response at the Ada
draft preserves the dialog and the draft and stores the server
message. -/
theorem c5_failure_preserves_witness :
    (handleSubmit sAda
        (.response false (.ok (.apiErr { code := "invalid_email",
                                         message := "Email is invalid" })))).1.isModalOpen =
      sAda.isModalOpen ∧
    (handleSubmit sAda
        (.response false (.ok (.apiErr { code := "invalid_email",
                                         message := "Email is invalid" })))).1.newCustomer =
      sAda.newCustomer ∧
    (handleSubmit sAda
        (.response false (.ok (.apiErr { code := "invalid_email",
                                         message := "Email is invalid" })))).1.submitError =
      some "Email is invalid" :=
  have h := c5_failure_preserves sAda
    (.response false (.ok (.apiErr { code := "invalid_email", message := "Email is invalid" })))
    (by decide) (by decide) (by decide) rfl
  ⟨h.1, h.2.1,
   h.2.2.2.1 (.apiErr { code := "invalid_email", message := "Email is invalid" })
     "Email is invalid" rfl rfl (by decide)⟩

/-- C3 counterexample: when the error body of a non-ok create response
cannot be parsed, response.json() rejects with a SyntaxError, which is
an Error instance, so the catch clause stores the parse exception's own
message, not a generic fallback; this refutes the claim that the
create path falls back to a generic message on a malformed error
body. -/
theorem c3_malformed_body_counterexample :
    (handleSubmit sAda
        (.response false (.error (.error "Unexpected token < in JSON at position 0")))).1.submitError =
      some "Unexpected token < in JSON at position 0" ∧
    "Unexpected token < in JSON at position 0" ≠ "Failed to add customer" ∧
    "Unexpected token < in JSON at position 0" ≠ "An unexpected error occurred" := by
  decide

/-- C3 amended: a malformed error body never escapes as an uncaught
throw.  On the create path, with a fully-filled draft, a non-ok
response whose body fails to parse leaves the submission in the failed
state carrying the parse exception's own message when the rejection is
an Error instance, and the generic fallback message only for a
non-Error rejection; on the list path the fetcher rejects with the
parse exception and the swr cache transitions to the error state
carrying it, so the view still renders a best-effort message. -/
theorem c3_malformed_body (s : FormState) (e : JsError)
    (h1 : s.newCustomer.firstName ≠ "") (h2 : s.newCustomer.lastName ≠ "")
    (h3 : s.newCustomer.email ≠ "") :
    (handleSubmit s (.response false (.error e))).1.submitError =
      some (caughtMessage e) ∧
    (∀ m, e = .error m →
      (handleSubmit s (.response false (.error e))).1.submitError = some m) ∧
    (e = .nonError →
      (handleSubmit s (.response false (.error e))).1.submitError =
        some "An unexpected error occurred") ∧
    (handleSubmit s (.response false (.error e))).1.isSubmitting = false ∧
    (∀ ok : Bool, swrResolve (.response ok (.error e)) = .errorState (.errObj e)) := by
  have hv : ¬(s.newCustomer.firstName = "" ∨ s.newCustomer.lastName = ""
      ∨ s.newCustomer.email = "") := by
    push_neg
    exact ⟨h1, h2, h3⟩
  unfold handleSubmit
  rw [if_neg hv]
  refine ⟨rfl, ?_, ?_, rfl, ?_⟩
  · intro m hm
    rw [hm]
    rfl
  · intro hm
    rw [hm]
    rfl
  · intro ok
    rfl

/-- C3 amended witness: the parse-failure case at the Ada draft. -/
theorem c3_malformed_body_witness :
    (handleSubmit sAda
        (.response false (.error (.error "Unexpected end of JSON input")))).1.submitError =
      some "Unexpected end of JSON input" ∧
    swrResolve (.response false (.error (.error "Unexpected end of JSON input"))) =
      .errorState (.errObj (.error "Unexpected end of JSON input")) :=
  have h := c3_malformed_body sAda (.error "Unexpected end of JSON input")
    (by decide) (by decide) (by decide)
  ⟨h.2.1 "Unexpected end of JSON input" rfl, h.2.2.2.2 false⟩

/-- C6: in every handleSubmit execution, wherever the cache
invalidation event occurs in the trace, the outcome was a 2xx response
and the reception of that successful response occurs strictly earlier
in the trace; in particular no invalidation happens before the
response arrives and none happens in a failing execution. -/
theorem c6_invalidate_only_after_success (s : FormState) (net : FetchOutcome)
    (l₁ l₂ : List Event)
    (h : (handleSubmit s net).2 = l₁ ++ Event.invalidate :: l₂) :
    net.isSuccess = true ∧ Event.responseReceived true ∈ l₁ := by
  unfold handleSubmit at h
  by_cases hv : s.newCustomer.firstName = "" ∨ s.newCustomer.lastName = ""
      ∨ s.newCustomer.email = ""
  · rw [if_pos hv] at h
    exact absurd (h ▸ List.mem_append_right l₁ (List.mem_cons_self _ _))
      (List.not_mem_nil _)
  · rw [if_neg hv] at h
    match net with
    | .transportFail e =>
        have h2 : ([Event.enterSubmitting, Event.createRequest,
            Event.exitSubmitting] : List Event) = l₁ ++ Event.invalidate :: l₂ := h
        have hmem : Event.invalidate ∈
            ([Event.enterSubmitting, Event.createRequest,
              Event.exitSubmitting] : List Event) :=
          h2 ▸ List.mem_append_right l₁ (List.mem_cons_self _ _)
        simp at hmem
    | .response false (.ok j) =>
        have h2 : ([Event.enterSubmitting, Event.createRequest,
            Event.responseReceived false, Event.exitSubmitting] : List Event) =
            l₁ ++ Event.invalidate :: l₂ := h
        have hmem : Event.invalidate ∈
            ([Event.enterSubmitting, Event.createRequest,
              Event.responseReceived false, Event.exitSubmitting] : List Event) :=
          h2 ▸ List.mem_append_right l₁ (List.mem_cons_self _ _)
        simp at hmem
    | .response false (.error e) =>
        have h2 : ([Event.enterSubmitting, Event.createRequest,
            Event.responseReceived false, Event.exitSubmitting] : List Event) =
            l₁ ++ Event.invalidate :: l₂ := h
        have hmem : Event.invalidate ∈
            ([Event.enterSubmitting, Event.createRequest,
              Event.responseReceived false, Event.exitSubmitting] : List Event) :=
          h2 ▸ List.mem_append_right l₁ (List.mem_cons_self _ _)
        simp at hmem
    | .response true b =>
        have h2 : ([Event.enterSubmitting, Event.createRequest,
            Event.responseReceived true, Event.invalidate,
            Event.exitSubmitting] : List Event) = l₁ ++ Event.invalidate :: l₂ := h
        refine ⟨rfl, ?_⟩
        rcases l₁ with _ | ⟨a, _ | ⟨b', _ | ⟨c, _ | ⟨d, t⟩⟩⟩⟩
        · simp at h2
        · simp at h2
        · simp at h2
        · simp at h2
          rcases h2 with ⟨ha, hb, hc, -⟩
          rw [hc]
          simp
        · simp at h2
          rcases h2 with ⟨-, -, -, -, h2⟩
          rcases t with _ | ⟨u, t'⟩
          · simp at h2
          · simp at h2

/-- C6 witness: the successful execution at the Ada draft, split around
the invalidation event. -/
theorem c6_invalidate_only_after_success_witness :
    FetchOutcome.isSuccess (.response true (.ok .other)) = true ∧
    Event.responseReceived true ∈
      ([Event.enterSubmitting, Event.createRequest,
        Event.responseReceived true] : List Event) :=
  c6_invalidate_only_after_success sAda (.response true (.ok .other))
    [Event.enterSubmitting, Event.createRequest, Event.responseReceived true]
    [Event.exitSubmitting] (by decide)

/-- C7: every handleSubmit execution that entered the submitting state
ends with the inflight flag false and the leave-submitting event in its
trace, on every exit path: success, non-2xx response (parsed or
malformed body), and transport rejection. -/
theorem c7_submitting_cleared (s : FormState) (net : FetchOutcome)
    (h : Event.enterSubmitting ∈ (handleSubmit s net).2) :
    (handleSubmit s net).1.isSubmitting = false ∧
    Event.exitSubmitting ∈ (handleSubmit s net).2 := by
  unfold handleSubmit at h ⊢
  by_cases hv : s.newCustomer.firstName = "" ∨ s.newCustomer.lastName = ""
      ∨ s.newCustomer.email = ""
  · rw [if_pos hv] at h
    exact absurd h (List.not_mem_nil _)
  · rw [if_neg hv]
    match net with
    | .transportFail e => exact ⟨rfl, by simp⟩
    | .response true b => exact ⟨rfl, by simp⟩
    | .response false (.ok j) => exact ⟨rfl, by simp⟩
    | .response false (.error e) => exact ⟨rfl, by simp⟩

/-- C7 witness: the transport-failure path at the Ada draft. -/
theorem c7_submitting_cleared_witness :
    (handleSubmit sAda (.transportFail .nonError)).1.isSubmitting = false ∧
    Event.exitSubmitting ∈ (handleSubmit sAda (.transportFail .nonError)).2 :=
  c7_submitting_cleared sAda (.transportFail .nonError) (by decide)

/-- C8: a 500 list response with body code internal, message boom makes
the swr state the error state carrying that parsed body, and the error
banner renders its message field, boom. -/
theorem c8_list_error_surfaces :
    swrResolve (.response false (.ok (.apiErr { code := "internal", message := "boom" }))) =
      .errorState (.jsonBody (.apiErr { code := "internal", message := "boom" })) ∧
    Thrown.messageField
        (.jsonBody (.apiErr { code := "internal", message := "boom" })) = some "boom" := by
  decide

/-- C9: handleInputChange sets exactly the named field of the draft to
the given value, leaves the other two fields unchanged, and changes
neither the submission state (inflight flag, error message) nor the
dialog visibility. -/
theorem c9_setField_frame (s : FormState) (n : FieldName) (v : String) :
    (handleInputChange s n v).newCustomer.field n = v ∧
    (∀ m, m ≠ n →
      (handleInputChange s n v).newCustomer.field m = s.newCustomer.field m) ∧
    (handleInputChange s n v).isSubmitting = s.isSubmitting ∧
    (handleInputChange s n v).submitError = s.submitError ∧
    (handleInputChange s n v).isModalOpen = s.isModalOpen := by
  refine ⟨?_, ?_, rfl, rfl, rfl⟩
  · cases n <;> rfl
  · intro m hm
    cases n <;> cases m <;> first | rfl | exact absurd rfl hm

/-- C9 witness: updating the first name at the Ada draft leaves the
last name as it was. -/
theorem c9_setField_frame_witness :
    (handleInputChange sAda FieldName.firstName "Grace").newCustomer.field
        FieldName.lastName = sAda.newCustomer.field FieldName.lastName :=
  (c9_setField_frame sAda FieldName.firstName "Grace").2.1 FieldName.lastName (by decide)

/-- C10: starting from a cache with no fetch in flight, a second load
or invalidate issued while the first load is still pending coalesces
onto it: exactly one request is counted and the cache state is that of
the single load. -/
theorem c10_load_dedup (c : DirectoryCache) (h : c.inFlight = false) :
    c.load.requestCount = c.requestCount + 1 ∧
    c.load.load = c.load ∧
    c.load.invalidate = c.load := by
  unfold DirectoryCache.load DirectoryCache.invalidate
  rw [h]
  simp [DirectoryCache.load]

/-- C10 witness: deduplication from the fresh cache. -/
theorem c10_load_dedup_witness :
    (DirectoryCache.load { inFlight := false, requestCount := 0 }).requestCount = 1 ∧
    (DirectoryCache.load { inFlight := false, requestCount := 0 }).load =
      DirectoryCache.load { inFlight := false, requestCount := 0 } ∧
    (DirectoryCache.load { inFlight := false, requestCount := 0 }).invalidate =
      DirectoryCache.load { inFlight := false, requestCount := 0 } :=
  c10_load_dedup { inFlight := false, requestCount := 0 } rfl
